import Mathlib

/-!
Verification development for the `uploadcare` Python client
(`uploadcare/uploadcare.py`, `uploadcare/exceptions.py`).

The embedding is shallow: Python values that can appear as form-field values
or as the `expire` argument are modelled by `Val` (strings, ints, floats as
exact rationals, and `None`); Python dicts with string keys are association
lists with dict update semantics (`pdSet` keeps the first position of a key
and overwrites its value, later writes win); exceptions are the `Err` sum and
fallible code returns `Except Err _`.  External effects (filesystem existence,
the `dateparser` library, the clock) are passed in explicitly through `Sys`,
and the HTTP transport is a scripted list of `Response`s consumed one per
request, so that the number of network calls an operation performs is part of
its result.
-/

/-- Python values relevant to this client: `str`, `int`, `float`
(modelled exactly as a rational; the comparisons and truncations the code
performs on the values it actually passes are exact), and `None`. -/
inductive Val where
  | vs (s : String)
  | vi (n : ℤ)
  | vf (q : ℚ)
  | vnone
deriving DecidableEq, Repr

/-- Python truthiness for `Val`: empty string, zero and `None` are falsy. -/
def pyTruthy : Val → Bool
  | .vs s => s != ""
  | .vi n => n != 0
  | .vf q => q != 0
  | .vnone => false

/-- Python `str()` rendering for the values the modelled code interpolates
into f-strings (only strings and ints reach those sites). -/
def pyStr : Val → String
  | .vs s => s
  | .vi n => toString n
  | .vf q => toString q
  | .vnone => "None"

/-- A Python dict with string keys, as an ordered association list whose keys
are kept unique by `pdSet`. -/
abbrev PyDict := List (String × Val)

/-- Python dict item assignment: an existing key keeps its position and gets
the new value, a new key is appended. -/
def pdSet : PyDict → String → Val → PyDict
  | [], k, v => [(k, v)]
  | (k', v') :: rest, k, v =>
      if k' = k then (k, v) :: rest else (k', v') :: pdSet rest k v

/-- Python dict lookup (`d.get(k)` / `d[k]` without the raising behaviour). -/
def pdGet? : PyDict → String → Option Val
  | [], _ => none
  | (k', v') :: rest, k => if k' = k then some v' else pdGet? rest k

/-- Python `d.update(kvs)` / `{**d, **kvs}`: assign every pair in order. -/
def pdSetAll (d : PyDict) (kvs : List (String × Val)) : PyDict :=
  kvs.foldl (fun d kv => pdSet d kv.1 kv.2) d

/-- The value the dict built from `kvs` alone would hold at `k`: the last
binding of `k` in `kvs`, if any. -/
def lookupLast : List (String × Val) → String → Option Val
  | [], _ => none
  | (k', v') :: rest, k =>
      match lookupLast rest k with
      | some v => some v
      | none => if k' = k then some v' else none

/-- Boolean list-prefix test (used below for Python's `in` and `startswith`). -/
def isPrefixB : List Char → List Char → Bool
  | [], _ => true
  | a :: as, bs =>
      match bs with
      | [] => false
      | b :: bs' => a == b && isPrefixB as bs'

/-- Boolean contiguous-sublist test on characters. -/
def isInfixB (pat : List Char) : List Char → Bool
  | [] => isPrefixB pat []
  | c :: cs => isPrefixB pat (c :: cs) || isInfixB pat cs

/-- Python's substring containment `pat in s`. -/
def substrB (pat s : String) : Bool := isInfixB pat.data s.data

/-- Python's `s.startswith(pre)`. -/
def startsWithB (s pre : String) : Bool := isPrefixB pre.data s.data

/-- Split a character list at `/` separators. -/
def splitSlash : List Char → List (List Char)
  | [] => [[]]
  | c :: cs =>
      if c = '/' then [] :: splitSlash cs
      else
        match splitSlash cs with
        | [] => [[c]]
        | p :: ps => (c :: p) :: ps

/-- Python's `pathlib.Path(s).name` for ordinary paths (the final path
component); `pathlib` is an external collaborator, modelled for the inputs
the client receives: the last `/`-separated non-empty component. -/
def pathName (s : String) : String :=
  String.mk (((splitSlash s.data).filter (fun p => !p.isEmpty)).getLastD [])

/-- Python `int()` on an exact numeric value: truncation toward zero. -/
def pyTrunc (q : ℚ) : ℤ := if q < 0 then ⌈q⌉ else ⌊q⌋

theorem pdGet?_pdSet_self (d : PyDict) (k : String) (v : Val) :
    pdGet? (pdSet d k v) k = some v := by
  induction d with
  | nil => simp [pdSet, pdGet?]
  | cons kv rest ih =>
      obtain ⟨k', v'⟩ := kv
      by_cases h : k' = k <;> simp [pdSet, pdGet?, h, ih]

theorem pdGet?_pdSet_ne (d : PyDict) (k k' : String) (v : Val) (h : k' ≠ k) :
    pdGet? (pdSet d k v) k' = pdGet? d k' := by
  induction d with
  | nil => simp [pdSet, pdGet?, Ne.symm h]
  | cons kv rest ih =>
      obtain ⟨k0, v0⟩ := kv
      by_cases h0 : k0 = k
      · subst h0
        simp [pdSet, pdGet?, Ne.symm h]
      · by_cases h1 : k0 = k' <;> simp [pdSet, pdGet?, h, h0, h1, ih]

theorem pdGet?_pdSetAll (kvs : List (String × Val)) (d : PyDict) (k : String) :
    pdGet? (pdSetAll d kvs) k =
      match lookupLast kvs k with
      | some v => some v
      | none => pdGet? d k := by
  induction kvs generalizing d with
  | nil => simp [pdSetAll, lookupLast]
  | cons kv rest ih =>
      obtain ⟨k0, v0⟩ := kv
      have step : pdSetAll d ((k0, v0) :: rest) = pdSetAll (pdSet d k0 v0) rest := rfl
      rw [step, ih]
      cases hrest : lookupLast rest k with
      | some v => simp [lookupLast, hrest]
      | none =>
          by_cases h0 : k0 = k
          · subst h0
            simp [lookupLast, hrest, pdGet?_pdSet_self]
          · simp [lookupLast, hrest, h0, pdGet?_pdSet_ne d k0 k v0 (Ne.symm h0)]

/-!
SHA-256 and HMAC-SHA256 (the `hashlib` / `hmac` standard-library
collaborators).  Bytes are `Nat`s below 256, 32-bit words are `Nat`s reduced
`% 2 ^ 32` wherever an addition could overflow; the bitwise operations are
`Nat.land` / `Nat.lor` / `Nat.xor`, which cannot overflow 32 bits on 32-bit
inputs.
-/

/-- Rotate a 32-bit word right by `n` bit positions. -/
def rotr (n w : Nat) : Nat := w / 2 ^ n + w % 2 ^ n * 2 ^ (32 - n)

/-- Bitwise complement of a 32-bit word. -/
def not32 (w : Nat) : Nat := w ^^^ (2 ^ 32 - 1)

/-- The SHA-256 compression state: eight 32-bit working words. -/
structure H8 where
  a : Nat
  b : Nat
  c : Nat
  d : Nat
  e : Nat
  f : Nat
  g : Nat
  h : Nat

/-- SHA-256 initial hash value (fractional parts of square roots of the first
eight primes). -/
def sha256IV : H8 :=
  ⟨1779033703, 3144134277, 1013904242, 2773480762,
   1359893119, 2600822924, 528734635, 1541459225⟩

/-- SHA-256 round constants (fractional parts of cube roots of the first 64
primes). -/
def sha256K : List Nat :=
  [1116352408, 1899447441, 3049323471, 3921009573, 961987163,
   1508970993, 2453635748, 2870763221, 3624381080, 310598401,
   607225278, 1426881987, 1925078388, 2162078206, 2614888103,
   3248222580, 3835390401, 4022224774, 264347078, 604807628,
   770255983, 1249150122, 1555081692, 1996064986, 2554220882,
   2821834349, 2952996808, 3210313671, 3336571891, 3584528711,
   113926993, 338241895, 666307205, 773529912, 1294757372,
   1396182291, 1695183700, 1986661051, 2177026350, 2456956037,
   2730485921, 2820302411, 3259730800, 3345764771, 3516065817,
   3600352804, 4094571909, 275423344, 430227734, 506948616,
   659060556, 883997877, 958139571, 1322822218, 1537002063,
   1747873779, 1955562222, 2024104815, 2227730452, 2361852424,
   2428436474, 2756734187, 3204031479, 3329325298]

/-- Merkle–Damgård padding: append `0x80`, zeros to 56 mod 64, then the
original length in bits as 8 big-endian bytes. -/
def shaPad (m : List Nat) : List Nat :=
  let bits := 8 * m.length
  m ++ 0x80 :: List.replicate ((119 - m.length % 64) % 64) 0 ++
    [bits / 2 ^ 56 % 256, bits / 2 ^ 48 % 256, bits / 2 ^ 40 % 256,
     bits / 2 ^ 32 % 256, bits / 2 ^ 24 % 256, bits / 2 ^ 16 % 256,
     bits / 2 ^ 8 % 256, bits % 256]

/-- Split a byte string into 64-byte blocks; the fuel argument (one unit per
byte, spent at least once per block) keeps the recursion structural. -/
def toBlocksGo : Nat → List Nat → List (List Nat)
  | _, [] => []
  | 0, _ :: _ => []
  | fuel + 1, b :: rest => ((b :: rest).take 64) :: toBlocksGo fuel ((b :: rest).drop 64)

/-- Split a (padded) byte string into 64-byte blocks. -/
def toBlocks (l : List Nat) : List (List Nat) := toBlocksGo l.length l

/-- Big-endian 32-bit words of a block. -/
def toWords : List Nat → List Nat
  | b0 :: b1 :: b2 :: b3 :: rest =>
      (b0 * 2 ^ 24 + b1 * 2 ^ 16 + b2 * 2 ^ 8 + b3) :: toWords rest
  | _ => []

/-- One step of the SHA-256 message-schedule extension. -/
def scheduleStep (w : List Nat) : List Nat :=
  let t := w.length
  let s0 := let x := w.getD (t - 15) 0; rotr 7 x ^^^ rotr 18 x ^^^ x / 2 ^ 3
  let s1 := let x := w.getD (t - 2) 0; rotr 17 x ^^^ rotr 19 x ^^^ x / 2 ^ 10
  w ++ [(w.getD (t - 16) 0 + s0 + w.getD (t - 7) 0 + s1) % 2 ^ 32]

/-- The 64-word message schedule of one block. -/
def schedule (block : List Nat) : List Nat :=
  (List.range 48).foldl (fun w _ => scheduleStep w) (toWords block)

/-- One SHA-256 compression round for a round constant `k` and schedule
word `w`. -/
def round1 (st : H8) (kw : Nat × Nat) : H8 :=
  let S1 := rotr 6 st.e ^^^ rotr 11 st.e ^^^ rotr 25 st.e
  let ch := (st.e &&& st.f) ^^^ (not32 st.e &&& st.g)
  let t1 := (st.h + S1 + ch + kw.1 + kw.2) % 2 ^ 32
  let S0 := rotr 2 st.a ^^^ rotr 13 st.a ^^^ rotr 22 st.a
  let mj := (st.a &&& st.b) ^^^ (st.a &&& st.c) ^^^ (st.b &&& st.c)
  let t2 := (S0 + mj) % 2 ^ 32
  ⟨(t1 + t2) % 2 ^ 32, st.a, st.b, st.c, (st.d + t1) % 2 ^ 32, st.e, st.f, st.g⟩

/-- Compress one 64-byte block into the running hash value. -/
def compressBlock (hv : H8) (block : List Nat) : H8 :=
  let st := (sha256K.zip (schedule block)).foldl round1 hv
  ⟨(hv.a + st.a) % 2 ^ 32, (hv.b + st.b) % 2 ^ 32, (hv.c + st.c) % 2 ^ 32,
   (hv.d + st.d) % 2 ^ 32, (hv.e + st.e) % 2 ^ 32, (hv.f + st.f) % 2 ^ 32,
   (hv.g + st.g) % 2 ^ 32, (hv.h + st.h) % 2 ^ 32⟩

/-- Big-endian bytes of a 32-bit word. -/
def wordBytes (w : Nat) : List Nat :=
  [w / 2 ^ 24 % 256, w / 2 ^ 16 % 256, w / 2 ^ 8 % 256, w % 256]

/-- Serialize the final hash state as 32 big-endian bytes. -/
def digestBytes (hv : H8) : List Nat :=
  wordBytes hv.a ++ wordBytes hv.b ++ wordBytes hv.c ++ wordBytes hv.d ++
  wordBytes hv.e ++ wordBytes hv.f ++ wordBytes hv.g ++ wordBytes hv.h

/-- SHA-256 of a byte string. -/
def sha256 (m : List Nat) : List Nat :=
  digestBytes ((toBlocks (shaPad m)).foldl compressBlock sha256IV)

/-- HMAC-SHA256 (RFC 2104) of message `m` keyed by `key`, block size 64. -/
def hmacSha256 (key m : List Nat) : List Nat :=
  let k0 := if 64 < key.length then sha256 key else key
  let kp := k0 ++ List.replicate (64 - k0.length) 0
  sha256 (kp.map (fun b => b ^^^ 0x5c) ++ sha256 (kp.map (fun b => b ^^^ 0x36) ++ m))

/-- Lowercase hexadecimal digit for a nibble (callers pass values below 16;
the catch-all keeps the function total inside the hex alphabet). -/
def hexChar (n : Nat) : Char :=
  match n with
  | 0 => '0' | 1 => '1' | 2 => '2' | 3 => '3' | 4 => '4' | 5 => '5'
  | 6 => '6' | 7 => '7' | 8 => '8' | 9 => '9' | 10 => 'a' | 11 => 'b'
  | 12 => 'c' | 13 => 'd' | 14 => 'e' | 15 => 'f' | _ => '0'

/-- Lowercase hex rendering of a byte string (Python's `.hexdigest()`). -/
def hexOfBytes : List Nat → List Char
  | [] => []
  | b :: bs => hexChar (b / 16 % 16) :: hexChar (b % 16) :: hexOfBytes bs

/-- UTF-8 encoding of one code point (Python `str.encode('utf-8')`). -/
def utf8EncodeChar (c : Char) : List Nat :=
  let n := c.toNat
  if n < 0x80 then [n]
  else if n < 0x800 then [0xc0 + n / 64, 0x80 + n % 64]
  else if n < 0x10000 then [0xe0 + n / 4096, 0x80 + n / 64 % 64, 0x80 + n % 64]
  else [0xf0 + n / 262144, 0x80 + n / 4096 % 64, 0x80 + n / 64 % 64, 0x80 + n % 64]

/-- UTF-8 encoding of a string. -/
def utf8Encode (s : String) : List Nat :=
  s.data.foldr (fun c acc => utf8EncodeChar c ++ acc) []

/-!
The client model (`uploadcare/uploadcare.py`).  Each definition mirrors the
source function named in its doc comment.
-/

/-- Exceptions the modelled code can raise (`uploadcare/exceptions.py` plus
the built-in Python exceptions the code reaches).  `transportExhausted` is a
model artifact: the scripted transport had no response left for a request the
code performed. -/
inductive Err where
  | valueError (msg : String)
  | missingSecretKey
  | missingExpireKwarg
  | invalidDatetimeString
  | connectionError (body : String)
  | keyError (key : String)
  | nameError (name : String)
  | transportExhausted
deriving DecidableEq, Repr

/-- The `UploadCare` client configuration (`__init__`, lines 29–43). -/
structure Client where
  pub_key : String
  secret_key : Option String
  api_url : String

/-- Python truthiness of `self.secret_key` (`None` and `""` are falsy). -/
def secretTruthy (c : Client) : Bool :=
  match c.secret_key with
  | none => false
  | some s => s != ""

/-- External collaborators threaded explicitly: filesystem existence
(`Path(...).exists()`), `dateparser.parse` composed with
`time.mktime(….timetuple())` splitting off the sub-second part (the parse
oracle returns the parsed datetime as exact epoch seconds, `none` for an
unparseable string), and the clock (`time.time()`). -/
structure Sys where
  fs : String → Bool
  parse : String → Option ℚ
  now : ℚ

/-- A raw HTTP response: status code, raw text body, and the same body parsed
as JSON (`resp.text` / `resp.json()`). -/
structure Response where
  status_code : Nat
  text : String
  body : PyDict

/-- The secret key argument of `generate_secure_signature`: Python text or
bytes ( `bytes` / `bytearray`). -/
inductive Key where
  | text (s : String)
  | bytes (bs : List Nat)

/-- Key coercion in `generate_secure_signature` (lines 64–66): text keys are
UTF-8 encoded, byte keys are used as given. -/
def keyBytes : Key → List Nat
  | .text s => utf8Encode s
  | .bytes bs => bs

/-- The signature helper `generate_secure_signature` (lines 45–67): the
HMAC-SHA256 of the decimal string of `expire`, keyed by the secret key
bytes, rendered as lowercase hex (`hexdigest`).  (In the source it is
defined in the class body without a `self` parameter; the computation itself
is a pure function of its two arguments, embedded here as such.) -/
def generate_secure_signature (secret_key : Key) (expire : ℤ) : String :=
  String.mk (hexOfBytes (hmacSha256 (keyBytes secret_key) (utf8Encode (toString expire))))

/-- The message of the past-timestamp `ValueError` (line 85). -/
def pastMsg : String := "Expire timestamp cannot be in the past!"

/-- The message of the bad-type `ValueError` (lines 72–74). -/
def typeMsg : String :=
  "`expire` value must be a float or a string representing date and/or time in a recognizably valid format."

/-- Expiry resolution, lines 79–87 of `_secure_expire_signature`: a textual
expire is parsed (`dateparser.parse`, `InvalidDatetimeString` when the parse
returns `None`) and converted with `time.mktime(….timetuple())`, which keeps
whole epoch seconds; any resolved value below `time.time()` raises the
past-timestamp `ValueError`; the survivor is truncated with `int(…)`.
`vnone` cannot reach these lines (the `isinstance` check at line 71 rejected
it); its clause repeats that rejection to keep this function total. -/
def resolveExpiry (sys : Sys) : Val → Except Err ℤ
  | .vs s =>
      match sys.parse s with
      | none => .error .invalidDatetimeString
      | some d =>
          if (⌊d⌋ : ℚ) - sys.now < 0 then .error (.valueError pastMsg)
          else .ok ⌊d⌋
  | .vi n =>
      if (n : ℚ) - sys.now < 0 then .error (.valueError pastMsg)
      else .ok n
  | .vf q =>
      if q - sys.now < 0 then .error (.valueError pastMsg)
      else .ok (pyTrunc q)
  | .vnone => .error (.valueError typeMsg)

/-- Model of `_secure_expire_signature` (lines 69–89), embedded faithfully: the
`isinstance` check (line 71), the secret-key check (lines 76–77), expiry
resolution (lines 79–87) — and then line 88, which reads
`generate_secure_signature` as a bare name.  That name is a class attribute,
not a module-level binding, and method bodies do not see the class scope, so
every execution that reaches line 88 raises
`NameError: name 'generate_secure_signature' is not defined`. -/
def secure_expire_signature (sys : Sys) (c : Client) (expire : Val) :
    Except Err (ℤ × String) :=
  match expire with
  | .vnone => .error (.valueError typeMsg)
  | e =>
      if !secretTruthy c then .error .missingSecretKey
      else
        match resolveExpiry sys e with
        | .error err => .error err
        | .ok _ => .error (.nameError "generate_secure_signature")

/-- Model of `_check_response` (lines 91–97): a 200 response yields its parsed body;
any other status raises `MissingSecretKey` when the body contains the
missing-signature marker and no secret key is configured, and otherwise a
`ConnectionError` carrying the raw body text. -/
def check_response (c : Client) (r : Response) : Except Err PyDict :=
  if r.status_code ≠ 200 then
    if substrB "`signature` is required" r.text && !secretTruthy c then
      .error .missingSecretKey
    else .error (.connectionError r.text)
  else .ok r.body

/-- Observable events of the polling loop in `check_status`: one `poll` per
`requests.post` to the status endpoint, one `sleep` (in seconds) per
`time.sleep(0.5)`. -/
inductive Ev where
  | poll
  | sleep (seconds : ℚ)
deriving DecidableEq, Repr

/-- Number of status polls in an event trace. -/
def pollCount : List Ev → Nat
  | [] => 0
  | .poll :: rest => pollCount rest + 1
  | .sleep _ :: rest => pollCount rest

/-- Model of `check_status` (lines 111–136) against a scripted list of poll
responses, one consumed per iteration of the `while True` loop: a
`"success"` status breaks out and returns the `filename` and `uuid` values
of that same response (a missing field is the corresponding `KeyError`);
`"error"` or `"unknown"` raises `ConnectionError` with the raw response
text; any other status sleeps half a second and polls again.  Returns the
event trace together with the result. -/
def check_status : List Response → List Ev × Except Err (Val × Val)
  | [] => ([], .error .transportExhausted)
  | r :: rest =>
      match pdGet? r.body "status" with
      | none => ([.poll], .error (.keyError "status"))
      | some st =>
          if st = .vs "success" then
            ([.poll],
              match pdGet? r.body "filename" with
              | none => .error (.keyError "filename")
              | some fv =>
                  match pdGet? r.body "uuid" with
                  | none => .error (.keyError "uuid")
                  | some uv => .ok (fv, uv))
          else if st = .vs "error" ∨ st = .vs "unknown" then
            ([.poll], .error (.connectionError r.text))
          else
            let res := check_status rest
            (.poll :: .sleep (1 / 2) :: res.1, res.2)

/-- Model of `_input_identity` (lines 99–109): an existing local path selects the
`/base/` endpoint (`is_url = False`); otherwise the input must start with
`http` and selects `/from_url/`; anything else is a `ValueError`. -/
def input_identity (sys : Sys) (c : Client) (inp : String) :
    Except Err (Bool × String) :=
  if sys.fs inp then .ok (false, c.api_url ++ "/base/")
  else if !startsWithB inp "http" then
    .error (.valueError "Input is neither an existing file or a valid URL!")
  else .ok (true, c.api_url ++ "/from_url/")

/-- The form-field set `upload` builds (lines 174–186): the dict literal
`{pub_k: self.pub_key, 'UPLOADCARE_STORE': str(store), **kwargs}` with the
public-key field named `pub_key` for URL uploads and `UPLOADCARE_PUB_KEY`
for local files, then `source_url` for URL uploads, flattened
`metadata[<key>]` entries, and — when `expire` is truthy — the merge of
`_secure_expire_signature`'s result. -/
def uploadOutData (sys : Sys) (c : Client) (isUrl : Bool) (inp : String)
    (store : Val) (metadata : Option (List (String × Val))) (expire : Val)
    (kwargs : List (String × Val)) : Except Err PyDict :=
  let pubK := if isUrl then "pub_key" else "UPLOADCARE_PUB_KEY"
  let data := pdSetAll (pdSet (pdSet [] pubK (.vs c.pub_key))
    "UPLOADCARE_STORE" (.vs (pyStr store))) kwargs
  let data := if isUrl then pdSet data "source_url" (.vs inp) else data
  let data :=
    match metadata with
    | none => data
    | some md => pdSetAll data (md.map (fun kv => ("metadata[" ++ kv.1 ++ "]", kv.2)))
  if pyTruthy expire then
    match secure_expire_signature sys c expire with
    | .error e => .error e
    | .ok es => .ok (pdSetAll data [("expire", .vi es.1), ("signature", .vs es.2)])
  else .ok data

/-- The CDN URL format of line 207. -/
def cdnUrl (uuid fname : String) : String :=
  "https://ucarecdn.com/" ++ uuid ++ "/" ++ fname

/-- Model of `upload` (lines 138–207) against a scripted transport: the
`MissingExpireKwarg` precondition (lines 163–164, secret key truthy and
`expire` falsy) fires before anything else; then the base name, input
classification, field-set construction, one POST, response validation, and
the three result paths (local file: `res_json['file']`; URL with a truthy
`token`: drive `check_status` over the remaining scripted responses; URL
resolved synchronously: `filename` / `uuid` of the response).  Returns the
result together with the number of network calls performed.  (The local file
bytes and guessed content type are read into the multipart payload in the
source; they do not affect any modelled observable.) -/
def upload (sys : Sys) (transport : List Response) (c : Client) (inp : String)
    (store : Val) (metadata : Option (List (String × Val))) (expire : Val)
    (kwargs : List (String × Val)) : Except Err String × Nat :=
  if secretTruthy c && !pyTruthy expire then (.error .missingExpireKwarg, 0)
  else
    let fname := pathName inp
    match input_identity sys c inp with
    | .error e => (.error e, 0)
    | .ok idy =>
        match uploadOutData sys c idy.1 inp store metadata expire kwargs with
        | .error e => (.error e, 0)
        | .ok _data =>
            match transport with
            | [] => (.error .transportExhausted, 1)
            | r :: rest =>
                match check_response c r with
                | .error e => (.error e, 1)
                | .ok body =>
                    if !idy.1 then
                      match pdGet? body "file" with
                      | none => (.error (.keyError "file"), 1)
                      | some v => (.ok (cdnUrl (pyStr v) fname), 1)
                    else
                      match pdGet? body "token" with
                      | some tok =>
                          if pyTruthy tok then
                            let st := check_status rest
                            match st.2 with
                            | .error e => (.error e, 1 + pollCount st.1)
                            | .ok fu =>
                                (.ok (cdnUrl (pyStr fu.2) (pyStr fu.1)), 1 + pollCount st.1)
                          else
                            match pdGet? body "filename" with
                            | none => (.error (.keyError "filename"), 1)
                            | some fv =>
                                match pdGet? body "uuid" with
                                | none => (.error (.keyError "uuid"), 1)
                                | some uv => (.ok (cdnUrl (pyStr uv) (pyStr fv)), 1)
                      | none =>
                          match pdGet? body "filename" with
                          | none => (.error (.keyError "filename"), 1)
                          | some fv =>
                              match pdGet? body "uuid" with
                              | none => (.error (.keyError "uuid"), 1)
                              | some uv => (.ok (cdnUrl (pyStr uv) (pyStr fv)), 1)

/-- Model of `start_multipart` (lines 234–274): the same `MissingExpireKwarg`
precondition, then the field set
`{'UPLOADCARE_PUB_KEY', 'filename', 'size', **kwargs}` with the optional
secure-signature merge, one POST, and response validation. -/
def start_multipart (sys : Sys) (transport : List Response) (c : Client)
    (filename : String) (size : ℤ) (expire : Val)
    (kwargs : List (String × Val)) : Except Err PyDict × Nat :=
  if secretTruthy c && !pyTruthy expire then (.error .missingExpireKwarg, 0)
  else
    let data := pdSetAll (pdSet (pdSet (pdSet [] "UPLOADCARE_PUB_KEY"
      (.vs c.pub_key)) "filename" (.vs filename)) "size" (.vi size)) kwargs
    let data :=
      if pyTruthy expire then
        match secure_expire_signature sys c expire with
        | .error e => Except.error e
        | .ok es => .ok (pdSetAll data [("expire", .vi es.1), ("signature", .vs es.2)])
      else .ok data
    match data with
    | .error e => (.error e, 0)
    | .ok _d =>
        match transport with
        | [] => (.error .transportExhausted, 1)
        | r :: _ => (check_response c r, 1)

/-- The indexed field name `f'files[{n}]'` of line 332. -/
def filesKey (n : Nat) : String := "files[" ++ toString n ++ "]"

/-- The `for n, file in enumerate(files)` update loop of `create_group`
(lines 331–332), starting at index `n`. -/
def setFiles (d : PyDict) (n : Nat) : List Val → PyDict
  | [] => d
  | f :: fs => setFiles (pdSet d (filesKey n) f) (n + 1) fs

/-- The field set `create_group` builds (lines 330–332):
`{'pub_key': self.pub_key, **kwargs}` then the indexed `files[n]` entries. -/
def createGroupData (c : Client) (files : List Val)
    (kwargs : List (String × Val)) : PyDict :=
  setFiles (pdSetAll (pdSet [] "pub_key" (.vs c.pub_key)) kwargs) 0 files

/-- Model of `create_group` (lines 306–338): the `MissingExpireKwarg` precondition,
the field set above, the optional secure-signature merge, one POST, and
response validation. -/
def create_group (sys : Sys) (transport : List Response) (c : Client)
    (files : List Val) (expire : Val) (kwargs : List (String × Val)) :
    Except Err PyDict × Nat :=
  if secretTruthy c && !pyTruthy expire then (.error .missingExpireKwarg, 0)
  else
    let data := createGroupData c files kwargs
    let data :=
      if pyTruthy expire then
        match secure_expire_signature sys c expire with
        | .error e => Except.error e
        | .ok es => .ok (pdSetAll data [("expire", .vi es.1), ("signature", .vs es.2)])
      else .ok data
    match data with
    | .error e => (.error e, 0)
    | .ok _d =>
        match transport with
        | [] => (.error .transportExhausted, 1)
        | r :: _ => (check_response c r, 1)

/-!
Shape facts about the digest pipeline, for the signature-format claims.
-/

theorem wordBytes_length (w : Nat) : (wordBytes w).length = 4 := rfl

theorem wordBytes_lt (w : Nat) : ∀ b ∈ wordBytes w, b < 256 := by
  intro b hb
  simp [wordBytes] at hb
  rcases hb with h | h | h | h <;> omega

theorem sha256_length (m : List Nat) : (sha256 m).length = 32 := by
  simp [sha256, digestBytes, wordBytes]

theorem sha256_lt (m : List Nat) : ∀ b ∈ sha256 m, b < 256 := by
  intro b hb
  simp only [sha256, digestBytes, List.mem_append] at hb
  rcases hb with ((((((h | h) | h) | h) | h) | h) | h) | h <;>
    exact wordBytes_lt _ b h

theorem hmacSha256_length (key m : List Nat) : (hmacSha256 key m).length = 32 :=
  sha256_length _

/-- The lowercase hexadecimal alphabet. -/
def hexAlphabet : List Char := "0123456789abcdef".data

theorem hexChar_mem (n : Nat) : hexChar n ∈ hexAlphabet := by
  unfold hexChar
  split <;> decide

theorem hexOfBytes_length (bs : List Nat) : (hexOfBytes bs).length = 2 * bs.length := by
  induction bs with
  | nil => rfl
  | cons b rest ih => simp [hexOfBytes, ih]; omega

theorem hexOfBytes_mem (bs : List Nat) : ∀ ch ∈ hexOfBytes bs, ch ∈ hexAlphabet := by
  induction bs with
  | nil => intro ch h; cases h
  | cons b rest ih =>
      intro ch h
      rcases h with _ | ⟨_, _ | ⟨_, htail⟩⟩
      · exact hexChar_mem _
      · exact hexChar_mem _
      · exact ih ch htail

/-- Known-answer test for the SHA-256 embedding (FIPS 180-2 empty-message
vector). -/
theorem sha256_empty_vector :
    String.mk (hexOfBytes (sha256 [])) =
      "e3b0c44298fc1c149afbf4c8996fb92427ae41e4649b934ca495991b7852b855" := by
  decide

set_option maxRecDepth 100000 in
/-- Known-answer test for the HMAC-SHA256 embedding (RFC 2202-style
key/message vector). -/
theorem hmacSha256_vector :
    String.mk (hexOfBytes (hmacSha256 (utf8Encode "key")
        (utf8Encode "The quick brown fox jumps over the lazy dog"))) =
      "f7bc83f430538424b13298e6aa6fb143ef4d59a14946175997479dbc2d1a3cd8" := by
  decide

set_option maxRecDepth 100000 in
/-- Known-answer test for `generate_secure_signature` itself: the value
`hmac.new(b'testkey', b'1454903856', hashlib.sha256).hexdigest()` produces. -/
theorem generate_secure_signature_vector :
    generate_secure_signature (.text "testkey") 1454903856 =
      "33675729512bb5dabe75b94936758e77f78ac3d67ea799447f5926cbabd411c7" := by
  decide

/-- C9: for every secret key (text or bytes) and integer expire, the
signature computation is deterministic, equals the hex rendering of the
HMAC-SHA256 of the decimal string of the expire keyed by the key bytes
(text keys UTF-8 encoded), and is a string of 64 lowercase hexadecimal
characters. -/
theorem c9_signature_shape (k : Key) (e : ℤ) :
    (∀ (k' : Key) (e' : ℤ), k = k' → e = e' →
      generate_secure_signature k e = generate_secure_signature k' e') ∧
    generate_secure_signature k e =
      String.mk (hexOfBytes (hmacSha256 (keyBytes k) (utf8Encode (toString e)))) ∧
    (generate_secure_signature k e).length = 64 ∧
    ∀ ch ∈ (generate_secure_signature k e).data, ch ∈ hexAlphabet := by
  refine ⟨?_, rfl, ?_, ?_⟩
  · intro k' e' hk he
    rw [hk, he]
  · show (hexOfBytes (hmacSha256 (keyBytes k) (utf8Encode (toString e)))).length = 64
    rw [hexOfBytes_length, hmacSha256_length]
  · intro ch hch
    exact hexOfBytes_mem _ ch hch

/-- Witness for C9 at the concrete key `"testkey"` and expire
`1454903856`. -/
theorem c9_signature_shape_witness :
    generate_secure_signature (.text "testkey") 1454903856 =
      generate_secure_signature (.text "testkey") 1454903856 ∧
    (generate_secure_signature (.text "testkey") 1454903856).length = 64 :=
  ⟨(c9_signature_shape (.text "testkey") 1454903856).1 _ _ rfl rfl,
   (c9_signature_shape (.text "testkey") 1454903856).2.2.1⟩

/-- A concrete environment for closed evaluations: no file exists, nothing
parses, the clock reads 1000. -/
def sysAt1000 : Sys := ⟨fun _ => false, fun _ => none, 1000⟩

/-- A concrete client with a configured secret key. -/
def clientWithKey : Client := ⟨"pk", some "secretkey", "https://upload.uploadcare.com"⟩

/-- C1: evaluation of `_secure_expire_signature` at a client with a secret
key and a valid future expire (now = 1000, expire = 4600).  The expiry
resolves and validates, and then line 88 raises
`NameError: name 'generate_secure_signature' is not defined` — the method is
a class attribute referenced as a bare name, and method bodies do not see
the class scope — instead of returning the `{expire, signature}` mapping the
claim (and the surrounding docstrings) describe. -/
theorem c1_secure_params_name_error :
    secure_expire_signature sysAt1000 clientWithKey (.vi 4600) =
      .error (.nameError "generate_secure_signature") := by
  have hkey : secretTruthy clientWithKey = true := by decide
  norm_num [secure_expire_signature, hkey, sysAt1000, resolveExpiry]

/-- C2 counterexample: with now = 1000, the numeric input 1000 resolves to
an instant that is *not strictly after* now, yet expiry resolution accepts
it and returns 1000 — the code's check `expire - time.time() < 0` rejects
only instants strictly *before* now. -/
theorem c2_counterexample :
    resolveExpiry sysAt1000 (.vi 1000) = .ok 1000 ∧
    ¬ ((1000 : ℚ) < (1000 : ℚ)) := by
  constructor
  · norm_num [resolveExpiry, sysAt1000]
  · exact lt_irrefl _

/-- C2 (amended): expiry resolution rejects with the past-timestamp
`ValueError` exactly the inputs whose resolved instant is strictly *before*
now, and succeeds on every input resolving at or after now, returning the
instant truncated to integer seconds (textual inputs additionally fail with
`InvalidDatetimeString` when the parser returns nothing; in particular, with
now = T, input T - 1 raises the validation error and input T + 3600 returns
T + 3600). -/
theorem c2_expiry_resolution (sys : Sys) :
    (∀ n : ℤ,
      (((n : ℚ) < sys.now → resolveExpiry sys (.vi n) = .error (.valueError pastMsg)) ∧
       (sys.now ≤ (n : ℚ) → resolveExpiry sys (.vi n) = .ok n))) ∧
    (∀ q : ℚ,
      ((q < sys.now → resolveExpiry sys (.vf q) = .error (.valueError pastMsg)) ∧
       (sys.now ≤ q → resolveExpiry sys (.vf q) = .ok (pyTrunc q)))) ∧
    (∀ s : String,
      ((sys.parse s = none → resolveExpiry sys (.vs s) = .error .invalidDatetimeString) ∧
       (∀ d : ℚ, sys.parse s = some d →
         (((⌊d⌋ : ℚ) < sys.now → resolveExpiry sys (.vs s) = .error (.valueError pastMsg)) ∧
          (sys.now ≤ (⌊d⌋ : ℚ) → resolveExpiry sys (.vs s) = .ok ⌊d⌋))))) := by
  refine ⟨fun n => ⟨fun h => ?_, fun h => ?_⟩,
          fun q => ⟨fun h => ?_, fun h => ?_⟩,
          fun s => ⟨fun h => ?_, fun d hd => ⟨fun h => ?_, fun h => ?_⟩⟩⟩ <;>
    simp [resolveExpiry, sub_neg, *]

/-- Witness for C2's amended statement: with now = 1000, input 999 raises
the past-timestamp error and input 4600 (= now + 3600) returns 4600. -/
theorem c2_expiry_resolution_witness :
    resolveExpiry sysAt1000 (.vi 999) = .error (.valueError pastMsg) ∧
    resolveExpiry sysAt1000 (.vi 4600) = .ok 4600 :=
  ⟨((c2_expiry_resolution sysAt1000).1 999).1 (by norm_num [sysAt1000]),
   ((c2_expiry_resolution sysAt1000).1 4600).2 (by norm_num [sysAt1000])⟩

/-- C3: with a (truthy) secret key configured and no `expire` argument
(Python `None`, the parameter default), `upload`, `start_multipart` and
`create_group` all raise `MissingExpireKwarg` and perform zero network
calls, for every scripted transport. -/
theorem c3_missing_expire (sys : Sys) (transport : List Response) (c : Client)
    (inp : String) (store : Val) (metadata : Option (List (String × Val)))
    (kwargs : List (String × Val)) (filename : String) (size : ℤ)
    (files : List Val) (h : secretTruthy c = true) :
    upload sys transport c inp store metadata .vnone kwargs =
      (.error .missingExpireKwarg, 0) ∧
    start_multipart sys transport c filename size .vnone kwargs =
      (.error .missingExpireKwarg, 0) ∧
    create_group sys transport c files .vnone kwargs =
      (.error .missingExpireKwarg, 0) := by
  refine ⟨?_, ?_, ?_⟩ <;>
    simp [upload, start_multipart, create_group, h, pyTruthy]

/-- Witness for C3 at a concrete client, inputs and (nonempty) transport. -/
theorem c3_missing_expire_witness :
    upload sysAt1000 [⟨200, "", []⟩] clientWithKey "photo.jpg" (.vs "auto")
        none .vnone [] = (.error .missingExpireKwarg, 0) ∧
    start_multipart sysAt1000 [⟨200, "", []⟩] clientWithKey "f.bin" 10
        .vnone [] = (.error .missingExpireKwarg, 0) ∧
    create_group sysAt1000 [⟨200, "", []⟩] clientWithKey [.vs "u1"] .vnone [] =
      (.error .missingExpireKwarg, 0) :=
  c3_missing_expire sysAt1000 [⟨200, "", []⟩] clientWithKey "photo.jpg"
    (.vs "auto") none [] "f.bin" 10 [.vs "u1"] (by decide)

/-- C10: with a (truthy) secret key configured, the `expire` precondition of
`upload`, `start_multipart` and `create_group` tests Python truthiness, not
presence: every falsy `expire` value (0, 0.0, the empty string — and `None`)
raises `MissingExpireKwarg` with zero network calls even though the argument
was explicitly supplied. -/
theorem c10_falsy_expire (sys : Sys) (transport : List Response) (c : Client)
    (inp : String) (store : Val) (metadata : Option (List (String × Val)))
    (kwargs : List (String × Val)) (filename : String) (size : ℤ)
    (files : List Val) (expire : Val) (h : secretTruthy c = true)
    (hf : pyTruthy expire = false) :
    upload sys transport c inp store metadata expire kwargs =
      (.error .missingExpireKwarg, 0) ∧
    start_multipart sys transport c filename size expire kwargs =
      (.error .missingExpireKwarg, 0) ∧
    create_group sys transport c files expire kwargs =
      (.error .missingExpireKwarg, 0) := by
  refine ⟨?_, ?_, ?_⟩ <;>
    simp [upload, start_multipart, create_group, h, hf]

/-- Witness for C10 at the falsy provided values 0, 0.0 and `""`. -/
theorem c10_falsy_expire_witness :
    upload sysAt1000 [] clientWithKey "photo.jpg" (.vs "auto") none (.vi 0) [] =
      (.error .missingExpireKwarg, 0) ∧
    start_multipart sysAt1000 [] clientWithKey "f.bin" 10 (.vf 0) [] =
      (.error .missingExpireKwarg, 0) ∧
    create_group sysAt1000 [] clientWithKey [.vs "u1"] (.vs "") [] =
      (.error .missingExpireKwarg, 0) :=
  ⟨(c10_falsy_expire sysAt1000 [] clientWithKey "photo.jpg" (.vs "auto") none
      [] "f.bin" 10 [.vs "u1"] (.vi 0) (by decide) (by decide)).1,
   (c10_falsy_expire sysAt1000 [] clientWithKey "photo.jpg" (.vs "auto") none
      [] "f.bin" 10 [.vs "u1"] (.vf 0) (by decide) (by decide)).2.1,
   (c10_falsy_expire sysAt1000 [] clientWithKey "photo.jpg" (.vs "auto") none
      [] "f.bin" 10 [.vs "u1"] (.vs "") (by decide) (by decide)).2.2⟩

theorem pdGet?_setFiles (files : List Val) (d : PyDict) (n : Nat) (key : String)
    (h : ∀ i, i < files.length → key ≠ filesKey (n + i)) :
    pdGet? (setFiles d n files) key = pdGet? d key := by
  induction files generalizing d n with
  | nil => rfl
  | cons f fs ih =>
      have h0 : key ≠ filesKey n := by
        have := h 0 (by simp)
        simpa using this
      have hrest : ∀ i, i < fs.length → key ≠ filesKey (n + 1 + i) := by
        intro i hi
        have := h (i + 1) (by simp; omega)
        rwa [show n + (i + 1) = n + 1 + i by omega] at this
      rw [setFiles, ih _ _ hrest, pdGet?_pdSet_ne _ _ _ _ h0]

/-- C4 counterexample: an extra caller-supplied field named
`UPLOADCARE_STORE` *does* override the reserved store flag in the built
upload field set — the dict literal `{…, 'UPLOADCARE_STORE': str(store),
**kwargs}` lets `kwargs` win — so the built request carries `"evil"`, not
the reserved `"auto"`. -/
theorem c4_counterexample :
    uploadOutData sysAt1000 ⟨"pk", none, "https://upload.uploadcare.com"⟩
        false "photo.jpg" (.vs "auto") none .vnone
        [("UPLOADCARE_STORE", .vs "evil")] =
      .ok [("UPLOADCARE_PUB_KEY", .vs "pk"), ("UPLOADCARE_STORE", .vs "evil")] ∧
    Val.vs "evil" ≠ Val.vs "auto" := by
  constructor
  · rfl
  · decide

/-- C4 (amended): arbitrary caller-supplied extra fields are merged verbatim
into the outgoing field set and DO override the fixed structural fields on a
name collision — whenever an extra field shares a name with a reserved field
(the public-key field, the store flag), the extra field's value is the one
present in the built request (shown for the upload field set, with no
metadata and no expire so no later update intervenes and, for URL uploads,
for keys other than `source_url`; and for the group field set, for keys not
of the indexed `files[n]` form). -/
theorem c4_kwargs_override (sys : Sys) (c : Client) (isUrl : Bool)
    (inp : String) (store : Val) (kwargs : List (String × Val)) (key : String)
    (v : Val) (files : List Val)
    (hk : lookupLast kwargs key = some v)
    (hsrc : isUrl = true → key ≠ "source_url")
    (hfiles : ∀ i, i < files.length → key ≠ filesKey i) :
    (∃ d, uploadOutData sys c isUrl inp store none .vnone kwargs = .ok d ∧
      pdGet? d key = some v) ∧
    pdGet? (createGroupData c files kwargs) key = some v := by
  constructor
  · cases isUrl
    · refine ⟨_, rfl, ?_⟩
      show pdGet? (pdSetAll (pdSet (pdSet [] "UPLOADCARE_PUB_KEY"
        (Val.vs c.pub_key)) "UPLOADCARE_STORE" (Val.vs (pyStr store))) kwargs)
        key = some v
      rw [pdGet?_pdSetAll, hk]
    · refine ⟨_, rfl, ?_⟩
      show pdGet? (pdSet (pdSetAll (pdSet (pdSet [] "pub_key"
        (Val.vs c.pub_key)) "UPLOADCARE_STORE" (Val.vs (pyStr store))) kwargs)
        "source_url" (Val.vs inp)) key = some v
      rw [pdGet?_pdSet_ne _ _ _ _ (hsrc rfl), pdGet?_pdSetAll, hk]
  · rw [createGroupData, pdGet?_setFiles _ _ _ _ (by simpa using hfiles),
        pdGet?_pdSetAll, hk]

/-- Witness for C4's amended statement: an extra field named `pub_key`
overrides the reserved public-key field in both the upload and the
group-create field sets. -/
theorem c4_kwargs_override_witness :
    (∃ d, uploadOutData sysAt1000 ⟨"pk", none, "u"⟩ false "photo.jpg"
        (.vs "auto") none .vnone [("pub_key", .vs "evil")] = .ok d ∧
      pdGet? d "pub_key" = some (.vs "evil")) ∧
    pdGet? (createGroupData ⟨"pk", none, "u"⟩ [.vs "f1"]
        [("pub_key", .vs "evil")]) "pub_key" = some (.vs "evil") :=
  c4_kwargs_override sysAt1000 ⟨"pk", none, "u"⟩ false "photo.jpg"
    (.vs "auto") [("pub_key", .vs "evil")] "pub_key" (.vs "evil") [.vs "f1"]
    (by decide) (fun h => nomatch h) (by decide)

/-- C5: response validation succeeds — returning the parsed payload
unmodified — exactly on status code 200, and every other status yields an
error, never a payload. -/
theorem c5_response_ok_iff (c : Client) (r : Response) :
    ((∃ p, check_response c r = .ok p) ↔ r.status_code = 200) ∧
    ∀ p, check_response c r = .ok p → p = r.body := by
  by_cases h : r.status_code = 200
  · constructor
    · simp [check_response, h]
    · intro p hp
      simp [check_response, h] at hp
      exact hp.symm
  · cases hb : substrB "`signature` is required" r.text && !secretTruthy c <;>
      constructor <;> simp [check_response, h, hb]

/-- Witness for C5: a 200 response yields a payload. -/
theorem c5_response_ok_iff_witness :
    (∃ p, check_response ⟨"pk", none, "u"⟩ ⟨200, "", [("a", .vi 1)]⟩ = .ok p) ∧
    ((⟨200, "", [("a", .vi 1)]⟩ : Response).status_code = 200) :=
  ⟨(c5_response_ok_iff ⟨"pk", none, "u"⟩ ⟨200, "", [("a", .vi 1)]⟩).1.mpr rfl,
   rfl⟩

/-- C6: a non-200 response whose body contains the missing-signature marker
fails with `MissingSecretKey` when no secret key is configured, and with the
generic `ConnectionError` carrying the raw body when a secret key is
configured. -/
theorem c6_missing_signature_marker (c : Client) (r : Response)
    (hst : r.status_code ≠ 200)
    (hmark : substrB "`signature` is required" r.text = true) :
    (secretTruthy c = false → check_response c r = .error .missingSecretKey) ∧
    (secretTruthy c = true → check_response c r = .error (.connectionError r.text)) := by
  constructor <;> intro hkey <;> simp [check_response, hst, hmark, hkey]

/-- Witness for C6: status 400 with the marker in the body, once without and
once with a configured secret key. -/
theorem c6_missing_signature_marker_witness :
    check_response ⟨"pk", none, "u"⟩
        ⟨400, "`signature` is required for this request", []⟩ =
      .error .missingSecretKey ∧
    check_response clientWithKey
        ⟨400, "`signature` is required for this request", []⟩ =
      .error (.connectionError "`signature` is required for this request") :=
  ⟨(c6_missing_signature_marker ⟨"pk", none, "u"⟩
      ⟨400, "`signature` is required for this request", []⟩
      (by decide) (by decide)).1 (by decide),
   (c6_missing_signature_marker clientWithKey
      ⟨400, "`signature` is required for this request", []⟩
      (by decide) (by decide)).2 (by decide)⟩

/-- A poll response whose `status` field is present and is none of the
terminal values. -/
def pendingB (r : Response) : Bool :=
  match pdGet? r.body "status" with
  | none => false
  | some st =>
      !(st == .vs "success") && !(st == .vs "error") && !(st == .vs "unknown")

/-- The event trace of a poll loop that sees `n` non-terminal responses
before a terminal one: `n` poll/sleep pairs and the final poll. -/
def pendTrace (n : Nat) : List Ev :=
  (List.replicate n [Ev.poll, Ev.sleep (1 / 2)]).flatten ++ [Ev.poll]

theorem pendTrace_succ (n : Nat) :
    pendTrace (n + 1) = .poll :: .sleep (1 / 2) :: pendTrace n := by
  simp [pendTrace, List.replicate_succ]

theorem pollCount_pendTrace (n : Nat) : pollCount (pendTrace n) = n + 1 := by
  induction n with
  | zero => rfl
  | succ m ih => rw [pendTrace_succ]; simp [pollCount, ih]

/-- C7: for every finite sequence of poll responses consisting of
non-terminal (`pendingB`) responses followed by a terminal one,
`check_status` polls once per response with a half-second sleep after each
non-terminal poll, and at the first terminal response either returns that
same response's `filename` and `uuid` (status `"success"`) or raises
`ConnectionError` with that response's raw text (status `"error"` or
`"unknown"`), performing no further polls — `n` pending responses before
the terminal one yield exactly `n + 1` polls. -/
theorem c7_poll_loop (pre : List Response) (r : Response) (rest : List Response)
    (hpre : ∀ p ∈ pre, pendingB p = true) :
    (∀ fv uv, pdGet? r.body "status" = some (.vs "success") →
      pdGet? r.body "filename" = some fv → pdGet? r.body "uuid" = some uv →
      check_status (pre ++ r :: rest) = (pendTrace pre.length, .ok (fv, uv)) ∧
      pollCount (pendTrace pre.length) = pre.length + 1) ∧
    (∀ st, pdGet? r.body "status" = some st →
      (st = .vs "error" ∨ st = .vs "unknown") →
      check_status (pre ++ r :: rest) =
        (pendTrace pre.length, .error (.connectionError r.text)) ∧
      pollCount (pendTrace pre.length) = pre.length + 1) := by
  induction pre with
  | nil =>
      constructor
      · intro fv uv hst hf hu
        refine ⟨?_, pollCount_pendTrace 0⟩
        simp [check_status, hst, hf, hu, pendTrace]
      · intro st hst hor
        refine ⟨?_, pollCount_pendTrace 0⟩
        have he : Val.vs "error" ≠ Val.vs "success" := by decide
        have hn : Val.vs "unknown" ≠ Val.vs "success" := by decide
        rcases hor with rfl | rfl <;> simp [check_status, hst, he, hn, pendTrace]
  | cons p pre' ih =>
      have hp := hpre p (List.mem_cons_self _ _)
      have hpre' : ∀ q ∈ pre', pendingB q = true :=
        fun q hq => hpre q (List.mem_cons_of_mem _ hq)
      obtain ⟨st0, hst0, h1, h2, h3⟩ :
          ∃ st0, pdGet? p.body "status" = some st0 ∧ st0 ≠ .vs "success" ∧
            st0 ≠ .vs "error" ∧ st0 ≠ .vs "unknown" := by
        unfold pendingB at hp
        cases hq : pdGet? p.body "status" with
        | none => rw [hq] at hp; cases hp
        | some st0 =>
            rw [hq] at hp
            simp at hp
            exact ⟨st0, rfl, hp.1.1, hp.1.2, hp.2⟩
      have step : check_status ((p :: pre') ++ r :: rest) =
          (.poll :: .sleep (1 / 2) :: (check_status (pre' ++ r :: rest)).1,
            (check_status (pre' ++ r :: rest)).2) := by
        simp [check_status, hst0, h1, h2, h3]
      constructor
      · intro fv uv hst hf hu
        have ihr := ((ih hpre').1 fv uv hst hf hu).1
        constructor
        · rw [step, ihr, List.length_cons, pendTrace_succ]
        · rw [List.length_cons, pollCount_pendTrace]
      · intro st hst hor
        have ihr := ((ih hpre').2 st hst hor).1
        constructor
        · rw [step, ihr, List.length_cons, pendTrace_succ]
        · rw [List.length_cons, pollCount_pendTrace]

/-- A scripted non-terminal poll response. -/
def respPending : Response := ⟨200, "", [("status", .vs "pending")]⟩

/-- A scripted terminal success poll response carrying the payload of the
claim's scenario. -/
def respSuccess : Response :=
  ⟨200, "", [("status", .vs "success"), ("filename", .vs "a.png"),
             ("uuid", .vs "U1")]⟩

/-- Witness for C7: the status sequence pending, pending, success with
payload filename `a.png`, uuid `U1` on the third poll yields exactly 3 polls
and that payload. -/
theorem c7_poll_loop_witness :
    check_status [respPending, respPending, respSuccess] =
      (pendTrace 2, .ok (.vs "a.png", .vs "U1")) ∧
    pollCount (pendTrace 2) = 2 + 1 :=
  (c7_poll_loop [respPending, respPending] respSuccess [] (by decide)).1
    (.vs "a.png") (.vs "U1") (by decide) (by decide) (by decide)

/-- C8: uploading an existing local file whose (200) response payload maps
`"file"` to a uuid string returns exactly
`https://ucarecdn.com/{uuid}/{base name of the input path}` after a single
network call (no secret key configured and no expire, so the secure-upload
paths stay out of the way). -/
theorem c8_local_upload_cdn_url (sys : Sys) (c : Client) (inp : String)
    (store : Val) (metadata : Option (List (String × Val)))
    (kwargs : List (String × Val)) (r : Response) (rest : List Response)
    (u : String) (hfs : sys.fs inp = true) (hkey : secretTruthy c = false)
    (hst : r.status_code = 200) (hfile : pdGet? r.body "file" = some (.vs u)) :
    upload sys (r :: rest) c inp store metadata .vnone kwargs =
      (.ok ("https://ucarecdn.com/" ++ u ++ "/" ++ pathName inp), 1) := by
  simp [upload, hkey, input_identity, hfs, uploadOutData, pyTruthy,
        check_response, hst, hfile, cdnUrl, pyStr]

/-- A concrete environment in which exactly `photo.jpg` exists. -/
def sysPhoto : Sys := ⟨fun s => s == "photo.jpg", fun _ => none, 1000⟩

/-- Witness for C8: uploading `photo.jpg` against a transport answering
`{file: "UUID123"}` yields `https://ucarecdn.com/UUID123/photo.jpg`. -/
theorem c8_local_upload_cdn_url_witness :
    upload sysPhoto [⟨200, "", [("file", .vs "UUID123")]⟩] ⟨"pk", none, "u"⟩
        "photo.jpg" (.vs "auto") none .vnone [] =
      (.ok "https://ucarecdn.com/UUID123/photo.jpg", 1) :=
  (c8_local_upload_cdn_url sysPhoto ⟨"pk", none, "u"⟩ "photo.jpg" (.vs "auto")
      none [] ⟨200, "", [("file", .vs "UUID123")]⟩ [] "UUID123"
      (by decide) (by decide) rfl (by decide)).trans
    (by rw [show ("https://ucarecdn.com/" ++ "UUID123" ++ "/" ++
        pathName "photo.jpg") = "https://ucarecdn.com/UUID123/photo.jpg"
      from by decide])
